import Mathlib

/-!
Verification of the image/video compositing pipeline of the `eshop_scraper`
backend (`app/services/image_processing_service.py`), centred on
`ImageProcessingService.merge_image_with_video` and
`ImageProcessingService._merge_with_opencv`.

Python floats are modelled as exact rationals (`ℚ`), Python ints as `ℤ`/`ℕ`,
Python's `int(...)` truncation toward zero as `pyInt`, and fallible Python
operations (float division by zero, numpy broadcasting errors, raised
exceptions) as `Except String`.
-/

namespace EshopScraper

/-- Python's `int(x)` applied to a float: truncation toward zero. -/
def pyInt (q : ℚ) : ℤ := if q < 0 then ⌈q⌉ else ⌊q⌋

/-- `zoom_duration = 3.0 if add_animation else 0.0` (source line 837). -/
def zoomDuration (animate : Bool) : ℚ := if animate then 3 else 0

/-- `min_scale = 0.05 if add_animation else scale` (source line 838). -/
def minScale (animate : Bool) (scale : ℚ) : ℚ := if animate then 1/20 else scale

/-- Per-frame scale computation of `_merge_with_opencv` (source lines 873-879):
`if add_animation and t < zoom_duration: progress = t / zoom_duration;
eased = 1 - (1 - progress) ** 3;
current_scale = min_scale + eased * (scale - min_scale) else: current_scale = scale`.
A zero `zoom_duration` reaching the division would raise `ZeroDivisionError`
in Python, modelled by the `Except.error` branch. -/
def currentScaleE (animate : Bool) (scale t : ℚ) : Except String ℚ :=
  if animate = true ∧ t < zoomDuration animate then
    if zoomDuration animate = 0 then Except.error "ZeroDivisionError"
    else
      let progress := t / zoomDuration animate
      let eased := 1 - (1 - progress) ^ 3
      Except.ok (minScale animate scale + eased * (scale - minScale animate scale))
  else Except.ok scale

/-- The floating vertical offset of `_merge_with_opencv` (source lines 893-897):
`dy = 0; if add_animation and t >= zoom_duration: phase = t - zoom_duration;
dy = int(30 * math.sin(phase * 0.8))`.  This is the real value
`30 * sin(phase * 0.8)` before the `int` truncation. -/
noncomputable def verticalOffsetR (animate : Bool) (t : ℚ) : ℝ :=
  if animate = true ∧ zoomDuration animate ≤ t then
    30 * Real.sin (((t : ℝ) - ((zoomDuration animate : ℚ) : ℝ)) * (8/10))
  else 0

/-- `product_w = max(1, int(width * current_scale))` with `width = 1920`
(source line 882). -/
def productW (cs : ℚ) : ℤ := max 1 (pyInt (1920 * cs))

/-- `ratio = product_w / product_np.shape[1];
product_h = max(1, int(product_np.shape[0] * ratio))` (source lines 883-884),
where `spriteW × spriteH` are the dimensions of the loaded product image. -/
def productH (spriteW spriteH : ℕ) (cs : ℚ) : ℤ :=
  max 1 (pyInt ((spriteH : ℚ) * ((productW cs : ℚ) / (spriteW : ℚ))))

/-- One axis of `x = max(0, min(width - product_w, x))` /
`y = max(0, min(height - product_h, y))` (source lines 926-928). -/
def clampAxis (limit pdim v : ℤ) : ℤ := max 0 (min (limit - pdim) v)

/-- The anchor-keyword dispatch of `_merge_with_opencv` (source lines 899-915):
given the position string, the current sprite dimensions `pw × ph` and the
floating offset `dy`, return `(target_x, target_y)`.  `width = 1920`,
`height = 1080`; Python's `//` on the nonnegative ints is `Nat` division and
`int(...)` on the float expressions is `pyInt`. -/
def targetPos (position : String) (pw ph : ℕ) (dy : ℤ) : ℤ × ℤ :=
  if position = "center" then
    (((1920 / 2 : ℕ) : ℤ) - ((pw / 2 : ℕ) : ℤ),
     pyInt ((1080 : ℚ) * (52/100) - ((ph / 2 : ℕ) : ℤ) + dy))
  else if position = "top" then
    (((1920 / 2 : ℕ) : ℤ) - ((pw / 2 : ℕ) : ℤ),
     pyInt ((1080 : ℚ) * (2/10) + dy))
  else if position = "bottom" then
    (((1920 / 2 : ℕ) : ℤ) - ((pw / 2 : ℕ) : ℤ),
     pyInt ((1080 : ℚ) * (8/10) - (ph : ℤ) + dy))
  else if position = "left" then
    (pyInt ((1920 : ℚ) * (2/10)),
     pyInt ((1080 : ℚ) * (52/100) - ((ph / 2 : ℕ) : ℤ) + dy))
  else if position = "right" then
    (pyInt ((1920 : ℚ) * (8/10) - (pw : ℤ)),
     pyInt ((1080 : ℚ) * (52/100) - ((ph / 2 : ℕ) : ℤ) + dy))
  else
    (((1920 / 2 : ℕ) : ℤ) - ((pw / 2 : ℕ) : ℤ),
     pyInt ((1080 : ℚ) * (52/100) - ((ph / 2 : ℕ) : ℤ) + dy))

/-- One smoothing update (source lines 917-921):
`if smooth_x is None: smooth_x, smooth_y = target_x, target_y` followed by
`smooth_x += (target_x - smooth_x) * smooth_factor` (and likewise for `y`),
with `smooth_factor = 0.08 = 2/25`. -/
def smoothStep (st : Option (ℚ × ℚ)) (target : ℤ × ℤ) : ℚ × ℚ :=
  let s := st.getD ((target.1 : ℚ), (target.2 : ℚ))
  (s.1 + ((target.1 : ℚ) - s.1) * (2/25), s.2 + ((target.2 : ℚ) - s.2) * (2/25))

/-- `x = int(smooth_x); y = int(smooth_y)` followed by the frame-bounds clamp
(source lines 923-928). -/
def renderPos (pw ph : ℤ) (s : ℚ × ℚ) : ℤ × ℤ :=
  (clampAxis 1920 pw (pyInt s.1), clampAxis 1080 ph (pyInt s.2))

/-- The cross-frame smoothing loop of `_merge_with_opencv` run over a list of
per-frame targets with fixed sprite dimensions: returns the smoothing state
carried out of the loop and the list of rendered (clamped integer) positions.
The state carried forward is the float pair `(smooth_x, smooth_y)`, exactly as
in the source, where the clamped ints `x, y` are local to each iteration. -/
def runSmooth (pw ph : ℤ) : Option (ℚ × ℚ) → List (ℤ × ℤ) →
    Option (ℚ × ℚ) × List (ℤ × ℤ)
  | st, [] => (st, [])
  | st, target :: ts =>
      let s := smoothStep st target
      let r := renderPos pw ph s
      let rest := runSmooth pw ph (some s) ts
      (rest.1, r :: rest.2)

/-- Modelled from the spec: the smoothing loop as §4.3/§3 of the spec describe
it, "smoothed against the previous frame's *rendered* position": identical to
`runSmooth` except that the state carried into the next frame is the rendered
(clamped integer) position of the current frame. -/
def runSmoothSpec (pw ph : ℤ) : Option (ℚ × ℚ) → List (ℤ × ℤ) →
    Option (ℚ × ℚ) × List (ℤ × ℤ)
  | st, [] => (st, [])
  | st, target :: ts =>
      let s := smoothStep st target
      let r := renderPos pw ph s
      let rest := runSmoothSpec pw ph (some ((r.1 : ℚ), (r.2 : ℚ))) ts
      (rest.1, r :: rest.2)

/-- The alpha-blend step of `_merge_with_opencv` (source lines 930-937):
`alpha = product_resized[:, :, 3] / 255.0` and, for each colour channel `c`,
`frame[y:y+product_h, x:x+product_w, c] = frame[...] * (1 - alpha) +
product_resized[:, :, c] * alpha`.  Numpy slicing truncates a slice at the
array edge, so the assignment raises a broadcast `ValueError` whenever the
truncated slice shape differs from the `product_h × product_w` operand shape;
that error is the `Except.error` branch.  When the shapes agree the result
frame is updated exactly on the rectangle `[y, y+ph) × [x, x+pw)`. -/
def composite (H W : ℕ) (frame : ℕ → ℕ → Fin 3 → ℚ) (spr : ℕ → ℕ → Fin 4 → ℚ)
    (ph pw y x : ℕ) : Except String (ℕ → ℕ → Fin 3 → ℚ) :=
  if min (y + ph) H - min y H = ph ∧ min (x + pw) W - min x W = pw then
    Except.ok (fun i j c =>
      if y ≤ i ∧ i < y + ph ∧ x ≤ j ∧ j < x + pw then
        frame i j c * (1 - spr (i - y) (j - x) 3 / 255)
          + spr (i - y) (j - x) c.castSucc * (spr (i - y) (j - x) 3 / 255)
      else frame i j c)
  else Except.error "operands could not be broadcast together"

/-- The duration cap of `_merge_with_opencv` (source lines 809-813):
`if duration: max_frames = int(fps * duration);
total_frames = min(total_frames, max_frames)`.  Python truthiness: a `None`
or `0` duration leaves `total_frames` unchanged. -/
def maxFramesCap (fps : ℚ) (totalFrames : ℕ) (duration : Option ℕ) : ℕ :=
  match duration with
  | none => totalFrames
  | some d => if d ≠ 0 then min totalFrames (pyInt (fps * (d : ℚ))).toNat
              else totalFrames

/-- The frame loop skeleton of `_merge_with_opencv` (source lines 861-864,
938-940): `while frame_idx < total_frames: ret, frame = cap.read();
if not ret: break; ...; frame_idx += 1`.  `reads i` tells whether the read of
frame `i` succeeds; the result is the list of frame indices actually
processed and written. -/
def framesList (reads : ℕ → Bool) (idx total : ℕ) : List ℕ :=
  if _h : idx < total then
    if reads idx then idx :: framesList reads (idx + 1) total else []
  else []
termination_by total - idx
decreasing_by omega

/-- The pipeline tail of `_merge_with_opencv` (source lines 970-985): after
the frame loop ends (by exhausting `total_frames` or by a failed read),
`cap.release(); out.release()` run unconditionally, then
`_convert_to_h264(...)` is invoked; a non-zero FFmpeg exit raises, which the
method wraps and re-raises.  Returns `(frames written, transcode invoked)` on
success. -/
def pipelineRun (reads : ℕ → Bool) (total : ℕ) (transcodeOk : Bool) :
    Except String (ℕ × Bool) :=
  let frames := framesList reads 0 total
  if transcodeOk then Except.ok (frames.length, true)
  else Except.error "Failed to merge video with OpenCV: FFmpeg conversion failed"

/-- File-system trace of `_merge_with_opencv` (source lines 771-991): the
`VideoWriter` creates the temp AVI as soon as it is opened; a frame-processing
exception or an FFmpeg failure propagates out of the bare `except` clause with
the AVI still on disk (the method has no `finally`); on success the AVI is
unlinked (source lines 980-985) and only the final MP4 remains, which is
returned. -/
def mergeWithOpencvFS (framesOk transcodeOk : Bool) :
    Except String String × List String :=
  let tempAvi := "merged-temp.avi"
  let outMp4 := "merged-video.mp4"
  if framesOk = false then
    (Except.error "Failed to merge video with OpenCV: frame processing", [tempAvi])
  else if transcodeOk = false then
    (Except.error "Failed to merge video with OpenCV: FFmpeg conversion failed",
     [tempAvi])
  else
    (Except.ok outMp4, [outMp4])

/-- File-system trace of `merge_image_with_video` (source lines 610-738): the
two downloads create temp files; `_merge_with_opencv` is called; the `finally`
block (source lines 730-738) unlinks `temp_product_path`, `temp_video_path`
and `temp_output_path` when they are set — on the failure path
`temp_output_path` was never assigned, so only the two downloads are removed
and whatever `_merge_with_opencv` left on disk stays.  Returns
`(success flag, files remaining after the method returns)`. -/
def mergeImageWithVideoFS (framesOk transcodeOk : Bool) : Bool × List String :=
  let tempProduct := "download-image.png"
  let tempVideo := "download-video.mp4"
  match mergeWithOpencvFS framesOk transcodeOk with
  | (Except.ok out, ocvFiles) =>
      (true, (tempProduct :: tempVideo :: ocvFiles).filter
        (fun f => !(f == tempProduct) && !(f == tempVideo) && !(f == out)))
  | (Except.error _, ocvFiles) =>
      (false, (tempProduct :: tempVideo :: ocvFiles).filter
        (fun f => !(f == tempProduct) && !(f == tempVideo)))

/-- When every read succeeds, the frame loop visits exactly the indices
`idx, idx+1, …, total-1`. -/
theorem framesList_all (reads : ℕ → Bool) (h : ∀ i, reads i = true) :
    ∀ (n idx total : ℕ), total - idx ≤ n →
      framesList reads idx total = List.range' idx (total - idx) := by
  intro n
  induction n with
  | zero =>
      intro idx total hle
      rw [framesList, dif_neg (by omega)]
      have h0 : total - idx = 0 := by omega
      rw [h0, List.range']
  | succ n ih =>
      intro idx total hle
      by_cases hlt : idx < total
      · rw [framesList, dif_pos hlt, h idx, if_pos rfl,
          ih (idx + 1) total (by omega)]
        have h1 : total - idx = (total - (idx + 1)) + 1 := by omega
        rw [h1, List.range'_succ]
      · rw [framesList, dif_neg hlt]
        have h0 : total - idx = 0 := by omega
        rw [h0, List.range']

/-- When the reads succeed exactly up to index `k < total` and fail at `k`,
the frame loop visits exactly the indices `idx, …, k-1`. -/
theorem framesList_upto (reads : ℕ → Bool) (k : ℕ)
    (hk : ∀ i, i < k → reads i = true) (hkf : reads k = false) :
    ∀ (n idx total : ℕ), total - idx ≤ n → idx ≤ k → k < total →
      framesList reads idx total = List.range' idx (k - idx) := by
  intro n
  induction n with
  | zero =>
      intro idx total hle hik hkt
      omega
  | succ n ih =>
      intro idx total hle hik hkt
      have hlt : idx < total := by omega
      by_cases hik' : idx = k
      · subst hik'
        rw [framesList, dif_pos hlt, hkf]
        have h0 : idx - idx = 0 := by omega
        rw [if_neg (by simp), h0, List.range']
      · rw [framesList, dif_pos hlt, hk idx (by omega), if_pos rfl,
          ih (idx + 1) total (by omega) (by omega) hkt]
        have h1 : k - idx = (k - (idx + 1)) + 1 := by omega
        rw [h1, List.range'_succ]

/-- The clamp keeps the coordinate inside `[0, limit - pdim]` as soon as the
sprite dimension fits the frame dimension. -/
theorem clampAxis_bounds (limit pdim v : ℤ) (h : pdim ≤ limit) :
    0 ≤ clampAxis limit pdim v ∧ clampAxis limit pdim v ≤ limit - pdim := by
  unfold clampAxis
  omega

/-- Any scale value the animation-curve evaluator can produce from a target
scale in `(0, 1]` at a nonnegative time lies in `(0, 1]` itself. -/
theorem currentScale_mem (animate : Bool) (s t v : ℚ)
    (hs0 : 0 < s) (hs1 : s ≤ 1) (ht : 0 ≤ t)
    (hv : currentScaleE animate s t = Except.ok v) : 0 < v ∧ v ≤ 1 := by
  rw [currentScaleE] at hv
  split at hv
  · next hc =>
      obtain ⟨ha, htz⟩ := hc
      subst ha
      rw [zoomDuration] at htz
      simp only [if_true] at htz
      rw [if_neg (by rw [zoomDuration]; norm_num)] at hv
      simp only [zoomDuration, minScale, if_true, Except.ok.injEq] at hv
      have hb0 : (0 : ℚ) < 1 - t / 3 := by linarith
      have hb1 : 1 - t / 3 ≤ 1 := by linarith
      have hc0 : (0 : ℚ) < (1 - t / 3) ^ 3 := pow_pos hb0 3
      have hc1 : (1 - t / 3) ^ 3 ≤ 1 := pow_le_one₀ (le_of_lt hb0) hb1
      rw [← hv]
      constructor
      · nlinarith
      · nlinarith
  · next hc =>
      simp only [Except.ok.injEq] at hv
      rw [← hv]
      exact ⟨hs0, hs1⟩

/-- The derived sprite width never exceeds the frame width when the current
scale is at most `1`. -/
theorem productW_le (v : ℚ) (hv : v ≤ 1) : productW v ≤ 1920 := by
  unfold productW pyInt
  rcases lt_or_le (1920 * v) 0 with h | h
  · rw [if_pos h]
    have hc : ⌈(1920 : ℚ) * v⌉ ≤ (0 : ℤ) := Int.ceil_le.mpr (by push_cast; linarith)
    omega
  · rw [if_neg (not_lt.mpr h)]
    have h1 : (1920 : ℚ) * v ≤ 1920 := by nlinarith
    have h2 : ⌊(1920 : ℚ) * v⌋ ≤ ⌊(1920 : ℚ)⌋ := Int.floor_le_floor h1
    have h3 : ⌊(1920 : ℚ)⌋ = 1920 := by norm_num
    omega

/-- C1 (amended): the per-frame clamped position always satisfies
`0 ≤ x ≤ frame_w - sprite_w` (the derived sprite width never exceeds 1920 for
a target scale in `(0, 1]`), and satisfies `0 ≤ y ≤ frame_h - sprite_h`
whenever the derived sprite height fits the 1080-pixel frame height; for a
sprite whose derived height exceeds the frame height the claimed invariant is
not restored by the clamp (see the counterexample). -/
theorem claim1_clamp_bounds (animate : Bool) (s t v : ℚ) (x y : ℤ)
    (sw sh : ℕ) (hs0 : 0 < s) (hs1 : s ≤ 1) (ht : 0 ≤ t)
    (hv : currentScaleE animate s t = Except.ok v) :
    (0 ≤ clampAxis 1920 (productW v) x
      ∧ clampAxis 1920 (productW v) x ≤ 1920 - productW v)
    ∧ (productH sw sh v ≤ 1080 →
        0 ≤ clampAxis 1080 (productH sw sh v) y
        ∧ clampAxis 1080 (productH sw sh v) y ≤ 1080 - productH sw sh v) := by
  have hmem := currentScale_mem animate s t v hs0 hs1 ht hv
  constructor
  · exact clampAxis_bounds 1920 (productW v) x (productW_le v hmem.2)
  · intro hph
    exact clampAxis_bounds 1080 (productH sw sh v) y hph

/-- Witness for C1 at the static scale `2/5`, a `100 × 100` sprite and
out-of-range raw positions on both sides. -/
theorem claim1_witness :
    (0 ≤ clampAxis 1920 (productW (2/5)) 5000
      ∧ clampAxis 1920 (productW (2/5)) 5000 ≤ 1920 - productW (2/5))
    ∧ (0 ≤ clampAxis 1080 (productH 100 100 (2/5)) (-50)
      ∧ clampAxis 1080 (productH 100 100 (2/5)) (-50)
          ≤ 1080 - productH 100 100 (2/5)) := by
  have hok : currentScaleE false (2/5) 0 = Except.ok (2/5) := by
    rw [currentScaleE, if_neg (by simp)]
  have hph : productH 100 100 (2/5) ≤ 1080 := by
    have hw : productW (2/5) = 768 := by norm_num [productW, pyInt]
    rw [productH, hw]
    norm_num [pyInt]
  exact ⟨(claim1_clamp_bounds false (2/5) 0 (2/5) 5000 (-50) 100 100
      (by norm_num) (by norm_num) le_rfl hok).1,
    (claim1_clamp_bounds false (2/5) 0 (2/5) 5000 (-50) 100 100
      (by norm_num) (by norm_num) le_rfl hok).2 hph⟩

/-- C1 counterexample: a `100 × 10000` sprite at the (allowed) static scale
`2/5` derives a sprite height of `76800 > 1080`; the clamp then yields `y = 0`
but the claimed invariant `y ≤ frame_h - sprite_h` is false, so the rendered
rectangle is not contained in the frame. -/
theorem claim1_counterexample :
    currentScaleE false (2/5) 0 = Except.ok (2/5)
    ∧ (1080 : ℤ) < productH 100 10000 (2/5)
    ∧ clampAxis 1080 (productH 100 10000 (2/5)) 500 = 0
    ∧ ¬ clampAxis 1080 (productH 100 10000 (2/5)) 500
        ≤ 1080 - productH 100 10000 (2/5) := by
  have hw : productW (2/5) = 768 := by norm_num [productW, pyInt]
  have hh : productH 100 10000 (2/5) = 76800 := by
    rw [productH, hw]
    norm_num [pyInt]
  refine ⟨?_, ?_, ?_, ?_⟩
  · rw [currentScaleE, if_neg (by simp)]
  · rw [hh]; norm_num
  · rw [hh]; norm_num [clampAxis]
  · rw [hh]; norm_num [clampAxis]

/-- C2 (amended): whenever the alpha-blend step succeeds it never writes
outside the destination frame bounds — the rectangle lies inside the frame
and every pixel outside it is untouched.  (The defensive-rejection half of
the original claim is refuted separately: an out-of-range rectangle makes the
numpy assignment raise a broadcast error rather than being clipped.) -/
theorem claim2_in_bounds (H W : ℕ) (frame : ℕ → ℕ → Fin 3 → ℚ)
    (spr : ℕ → ℕ → Fin 4 → ℚ) (ph pw y x : ℕ) (f' : ℕ → ℕ → Fin 3 → ℚ)
    (hok : composite H W frame spr ph pw y x = Except.ok f')
    (hph : 0 < ph) (hpw : 0 < pw) :
    (y + ph ≤ H ∧ x + pw ≤ W)
    ∧ ∀ i j c, (i < y ∨ y + ph ≤ i ∨ j < x ∨ x + pw ≤ j) →
        f' i j c = frame i j c := by
  rw [composite] at hok
  split at hok
  · next hc =>
      obtain ⟨hr, hcc⟩ := hc
      have hyH : y + ph ≤ H := by omega
      have hxW : x + pw ≤ W := by omega
      injection hok with hok
      subst hok
      refine ⟨⟨hyH, hxW⟩, ?_⟩
      intro i j c hout
      have hni : ¬ (y ≤ i ∧ i < y + ph ∧ x ≤ j ∧ j < x + pw) := by omega
      simp [hni]
  · exact absurd hok (by simp)

/-- Uniform zero frame used by the C2 witness and counterexample. -/
def witFrame : ℕ → ℕ → Fin 3 → ℚ := fun _ _ _ => 0

/-- Fully opaque uniform sprite used by the C2 witness and counterexample. -/
def witSprite : ℕ → ℕ → Fin 4 → ℚ := fun _ _ _ => 255

/-- Result frame of the C2 witness composite. -/
def witFrameOut : ℕ → ℕ → Fin 3 → ℚ :=
  match composite 4 4 witFrame witSprite 2 2 1 1 with
  | Except.ok f => f
  | Except.error _ => witFrame

/-- Witness for C2: a `2 × 2` sprite at position `(1, 1)` of a `4 × 4` frame
blends successfully and leaves every out-of-rectangle pixel unchanged. -/
theorem claim2_witness :
    ((1 : ℕ) + 2 ≤ 4 ∧ (1 : ℕ) + 2 ≤ 4)
    ∧ ∀ i j c, (i < 1 ∨ 1 + 2 ≤ i ∨ j < 1 ∨ 1 + 2 ≤ j) →
        witFrameOut i j c = witFrame i j c :=
  claim2_in_bounds 4 4 witFrame witSprite 2 2 1 1 witFrameOut rfl
    (by omega) (by omega)

/-- C2 counterexample: a sprite rectangle of height `2000` on a `1080`-row
frame is not defensively rejected or clipped — the truncated numpy slice no
longer matches the operand shape and the assignment raises a broadcast error
(here the `Except.error` result), which aborts the job. -/
theorem claim2_counterexample :
    composite 1080 1920 witFrame witSprite 2000 100 0 0
      = Except.error "operands could not be broadcast together" := rfl

/-- C3 (amended): the cross-frame state carried into the next frame is the
unclamped rational smoothed position — appending one more frame target updates
the carried state by `smoothStep` applied to the previous carried state, and
the newly rendered position is the truncated-and-clamped image of that state,
which is never written back into it. -/
theorem claim3_carried_state (pw ph : ℤ) (st : Option (ℚ × ℚ))
    (ts : List (ℤ × ℤ)) (target : ℤ × ℤ) :
    runSmooth pw ph st (ts ++ [target])
      = (some (smoothStep (runSmooth pw ph st ts).1 target),
         (runSmooth pw ph st ts).2
           ++ [renderPos pw ph (smoothStep (runSmooth pw ph st ts).1 target)]) := by
  induction ts generalizing st with
  | nil => simp [runSmooth]
  | cons t ts ih => simp [runSmooth, ih]

/-- C3 counterexample: with targets `(0,0), (110,0)` the state carried out of
frame 1 is the float pair `(44/5, 0)`, while frame 1 renders at the clamped
integer position `(8, 0)` — the carried state does not equal the rendered
position, and with a third target `(1000,0)` the code renders `(88, 0)` where
the spec-modelled rendered-position feedback would render `(87, 0)`. -/
theorem claim3_counterexample :
    (runSmooth 10 10 none [(0,0), (110,0)]).1 = some ((44/5 : ℚ), (0 : ℚ))
    ∧ (runSmooth 10 10 none [(0,0), (110,0)]).2 = [(0,0), (8,0)]
    ∧ ((44/5 : ℚ), (0 : ℚ)) ≠ (((8 : ℤ) : ℚ), ((0 : ℤ) : ℚ))
    ∧ (runSmooth 10 10 none [(0,0), (110,0), (1000,0)]).2
        = [(0,0), (8,0), (88,0)]
    ∧ (runSmoothSpec 10 10 none [(0,0), (110,0), (1000,0)]).2
        = [(0,0), (8,0), (87,0)] := by
  refine ⟨?_, ?_, ?_, ?_, ?_⟩
  · norm_num [runSmooth, smoothStep, renderPos, clampAxis, pyInt]
  · norm_num [runSmooth, smoothStep, renderPos, clampAxis, pyInt]
  · norm_num
  · norm_num [runSmooth, smoothStep, renderPos, clampAxis, pyInt]
  · norm_num [runSmoothSpec, smoothStep, renderPos, clampAxis, pyInt]

/-- C5: with animation enabled, for all `t ≥ zoom_window = 3` the scale is
exactly the configured target scale; the floating vertical offset
`30 * sin(0.8 * (t - 3))` is `0` at `t = 3` and stays within `[-30, 30]`. -/
theorem claim5_post_zoom (s t : ℚ) (ht : 3 ≤ t) :
    currentScaleE true s t = Except.ok s
    ∧ verticalOffsetR true 3 = 0
    ∧ -30 ≤ verticalOffsetR true t ∧ verticalOffsetR true t ≤ 30 := by
  have hzd : zoomDuration true = 3 := rfl
  refine ⟨?_, ?_, ?_, ?_⟩
  · rw [currentScaleE, if_neg]
    intro hc
    rw [hzd] at hc
    linarith [hc.2]
  · rw [verticalOffsetR, if_pos ⟨rfl, by rw [hzd]⟩, hzd]
    norm_num
  · rw [verticalOffsetR, if_pos ⟨rfl, by rw [hzd]; exact_mod_cast ht⟩]
    nlinarith [Real.neg_one_le_sin ((((t : ℚ) : ℝ) - (((zoomDuration true : ℚ)) : ℝ)) * (8/10)),
      Real.sin_le_one ((((t : ℚ) : ℝ) - (((zoomDuration true : ℚ)) : ℝ)) * (8/10))]
  · rw [verticalOffsetR, if_pos ⟨rfl, by rw [hzd]; exact_mod_cast ht⟩]
    nlinarith [Real.neg_one_le_sin ((((t : ℚ) : ℝ) - (((zoomDuration true : ℚ)) : ℝ)) * (8/10)),
      Real.sin_le_one ((((t : ℚ) : ℝ) - (((zoomDuration true : ℚ)) : ℝ)) * (8/10))]

/-- Witness for C5 at `t = 3` and target scale `2/5`. -/
theorem claim5_witness :
    currentScaleE true (2/5) 3 = Except.ok (2/5)
    ∧ verticalOffsetR true 3 = 0
    ∧ -30 ≤ verticalOffsetR true 3 ∧ verticalOffsetR true 3 ≤ 30 :=
  claim5_post_zoom (2/5) 3 (by norm_num)

/-- C6 (amended): with animation enabled the ease-out zoom curve starts at
`min_scale = 1/20` at `t = 0` and is monotonically non-decreasing on
`[0, 3)` for every target scale at least `min_scale` (in particular the
default `2/5`); for a target scale below `min_scale` the curve decreases
(see the counterexample), so the original "every scale in (0, 1]"
quantification fails. -/
theorem claim6_monotone (s t₁ t₂ v₁ v₂ : ℚ) (hs : 1/20 ≤ s)
    (h0 : 0 ≤ t₁) (h12 : t₁ ≤ t₂) (h2 : t₂ < 3)
    (hv₁ : currentScaleE true s t₁ = Except.ok v₁)
    (hv₂ : currentScaleE true s t₂ = Except.ok v₂) :
    v₁ ≤ v₂ ∧ currentScaleE true s 0 = Except.ok (1/20) := by
  have hzd : zoomDuration true = 3 := rfl
  have e₁ : minScale true s + (1 - (1 - t₁ / 3) ^ 3) * (s - minScale true s) = v₁ := by
    rw [currentScaleE, if_pos ⟨rfl, by rw [hzd]; linarith⟩,
      if_neg (by rw [hzd]; norm_num), hzd] at hv₁
    simpa using hv₁
  have e₂ : minScale true s + (1 - (1 - t₂ / 3) ^ 3) * (s - minScale true s) = v₂ := by
    rw [currentScaleE, if_pos ⟨rfl, by rw [hzd]; linarith⟩,
      if_neg (by rw [hzd]; norm_num), hzd] at hv₂
    simpa using hv₂
  have hms : minScale true s = 1/20 := rfl
  constructor
  · have hb : (1 - t₂ / 3) ^ 3 ≤ (1 - t₁ / 3) ^ 3 := by
      apply pow_le_pow_left₀ (by linarith) (by linarith)
    have he : (1 - (1 - t₁ / 3) ^ 3) ≤ (1 - (1 - t₂ / 3) ^ 3) := by linarith
    have hmul := mul_le_mul_of_nonneg_right he (by rw [hms]; linarith :
      (0 : ℚ) ≤ s - minScale true s)
    linarith
  · rw [currentScaleE, if_pos ⟨rfl, by rw [hzd]; norm_num⟩,
      if_neg (by rw [hzd]; norm_num), hzd, hms]
    norm_num

/-- Witness for C6 at the default target scale `2/5`, `t₁ = 0`, `t₂ = 1`. -/
theorem claim6_witness :
    (1/20 : ℚ) ≤ 8/27 ∧ currentScaleE true (2/5) 0 = Except.ok (1/20) := by
  have hv₁ : currentScaleE true (2/5) 0 = Except.ok (1/20) := by
    rw [currentScaleE, if_pos ⟨rfl, by norm_num [zoomDuration]⟩,
      if_neg (by norm_num [zoomDuration])]
    norm_num [zoomDuration, minScale]
  have hv₂ : currentScaleE true (2/5) 1 = Except.ok (8/27) := by
    rw [currentScaleE, if_pos ⟨rfl, by norm_num [zoomDuration]⟩,
      if_neg (by norm_num [zoomDuration])]
    norm_num [zoomDuration, minScale]
  exact claim6_monotone (2/5) 0 1 (1/20) (8/27) (by norm_num) (by norm_num)
    (by norm_num) (by norm_num) hv₁ hv₂

/-- C6 counterexample: at the allowed target scale `1/100 < min_scale` the
curve starts at `1/20` and has dropped to `3/200 < 1/20` by `t = 3/2`, so it
is not monotonically non-decreasing for every target scale in `(0, 1]`. -/
theorem claim6_counterexample :
    currentScaleE true (1/100) 0 = Except.ok (1/20)
    ∧ currentScaleE true (1/100) (3/2) = Except.ok (3/200)
    ∧ (3/200 : ℚ) < 1/20 := by
  refine ⟨?_, ?_, by norm_num⟩
  · rw [currentScaleE, if_pos ⟨rfl, by norm_num [zoomDuration]⟩,
      if_neg (by norm_num [zoomDuration])]
    norm_num [zoomDuration, minScale]
  · rw [currentScaleE, if_pos ⟨rfl, by norm_num [zoomDuration]⟩,
      if_neg (by norm_num [zoomDuration])]
    norm_num [zoomDuration, minScale]

/-- C4: the claim says every intermediate file is deleted on both success and
failure exit paths of `merge_image_with_video`.  The code deletes everything
on the success path, but when frame processing or the FFmpeg transcode raises
inside `_merge_with_opencv`, the intermediate AVI file is left on disk: the
method has no `finally` for it and the caller's `finally` only unlinks the
product, video and final-output paths. -/
theorem claim4_avi_leak :
    (mergeImageWithVideoFS true true).2 = []
    ∧ (mergeImageWithVideoFS true false).2 = ["merged-temp.avi"]
    ∧ (mergeImageWithVideoFS false true).2 = ["merged-temp.avi"] :=
  ⟨rfl, rfl, rfl⟩

/-- C7: assuming every frame read succeeds, the streaming loop processes
exactly the frame indices `0` to `min(total_frames, int(fps * duration))`
exclusive when a nonzero duration cap is given; for a 10-second 30 fps source,
`duration = 5` yields exactly 150 frames and `duration = None` all 300. -/
theorem claim7_frame_count (reads : ℕ → Bool) (h : ∀ i, reads i = true) :
    (∀ (total : ℕ) (fps : ℚ) (d : ℕ), d ≠ 0 →
        framesList reads 0 (maxFramesCap fps total (some d)) =
          List.range' 0 (min total (pyInt (fps * (d : ℚ))).toNat))
    ∧ (framesList reads 0 (maxFramesCap 30 300 (some 5))).length = 150
    ∧ (framesList reads 0 (maxFramesCap 30 300 none)).length = 300 := by
  have hall : ∀ total', framesList reads 0 total' = List.range' 0 total' := by
    intro total'
    have h0 := framesList_all reads h total' 0 total' (by omega)
    simpa using h0
  refine ⟨?_, ?_, ?_⟩
  · intro total fps d hd
    rw [hall, maxFramesCap]
    simp [hd]
  · rw [hall]
    have h150 : (pyInt ((30 : ℚ) * ((5 : ℕ) : ℚ))).toNat = 150 := by
      have h1 : pyInt ((30 : ℚ) * ((5 : ℕ) : ℚ)) = 150 := by norm_num [pyInt]
      rw [h1]; rfl
    have hcap : maxFramesCap 30 300 (some 5) = 150 := by
      rw [maxFramesCap, if_pos (by norm_num), h150]
      omega
    rw [hcap, List.length_range']

  · rw [hall]
    rw [maxFramesCap, List.length_range']

/-- Witness for C7 at the all-successful read oracle. -/
theorem claim7_witness :
    (framesList (fun _ => true) 0 (maxFramesCap 30 300 (some 5))).length = 150
    ∧ (framesList (fun _ => true) 0 (maxFramesCap 30 300 none)).length = 300 :=
  ⟨(claim7_frame_count (fun _ => true) (fun _ => rfl)).2.1,
   (claim7_frame_count (fun _ => true) (fun _ => rfl)).2.2⟩

/-- C8: a failed frame read before the expected frame count is non-fatal:
the loop stops, release and the H.264 transcode step still run, and the
pipeline succeeds with the frames produced so far. -/
theorem claim8_partial_read (reads : ℕ → Bool) (k total : ℕ)
    (hk : ∀ i, i < k → reads i = true) (hkf : reads k = false)
    (hlt : k < total) :
    pipelineRun reads total true = Except.ok (k, true) := by
  rw [pipelineRun, if_pos rfl]
  rw [framesList_upto reads k hk hkf total 0 total (by omega) (by omega) hlt]
  rw [List.length_range', Nat.sub_zero]

/-- Witness for C8: reads succeed for frames 0 and 1 and fail at frame 2 of
an expected 5; the pipeline still finalizes successfully with 2 frames. -/
theorem claim8_witness :
    pipelineRun (fun i => decide (i < 2)) 5 true = Except.ok (2, true) :=
  claim8_partial_read (fun i => decide (i < 2)) 2 5
    (fun i hi => decide_eq_true hi) rfl (by omega)

/-- C9: with animation disabled the evaluator short-circuits to the static
branch: the scale is the configured one (no `ZeroDivisionError` from the zero
zoom window, i.e. no `Except.error`) and the vertical offset is zero. -/
theorem claim9_static_branch (s t : ℚ) :
    currentScaleE false s t = Except.ok s ∧ verticalOffsetR false t = 0 := by
  constructor
  · rw [currentScaleE, if_neg]
    intro hc
    exact Bool.false_ne_true hc.1
  · rw [verticalOffsetR, if_neg]
    intro hc
    exact Bool.false_ne_true hc.1

/-- C10: a position string that is none of the five anchor keywords falls
back to exactly the center-anchor placement. -/
theorem claim10_fallback_center (pos : String) (pw ph : ℕ) (dy : ℤ)
    (h1 : pos ≠ "center") (h2 : pos ≠ "top") (h3 : pos ≠ "bottom")
    (h4 : pos ≠ "left") (h5 : pos ≠ "right") :
    targetPos pos pw ph dy = targetPos "center" pw ph dy := by
  rw [targetPos, targetPos, if_neg h1, if_neg h2, if_neg h3, if_neg h4,
    if_neg h5, if_pos rfl]

/-- Witness for C10 at an arbitrary unknown position string. -/
theorem claim10_witness :
    targetPos "float-left" 768 768 0 = targetPos "center" 768 768 0 :=
  claim10_fallback_center "float-left" 768 768 0 (by decide) (by decide)
    (by decide) (by decide) (by decide)

end EshopScraper
